import Mathlib

/-!
Verification of the image-classification worker (`src/workers/image-classification/main.py`)
of the edge-ai-sizing-tool repository.

The Python source is shallowly embedded below: pure helpers become Lean functions on
`Nat`/`Int`/`String`/`List`, filesystem and network effects become explicit parameters
(a `FileSystem` record of probe results, an `Except` value standing for the outcome of a
network call), and the supervisor loop becomes an explicit state machine.  Floating-point
rates parsed from pipeline log lines are modelled as exact rationals (`ℚ`); the decimal
literals appearing in the relevant log lines are exactly representable, so nothing in the
verified claims depends on binary rounding.

Definitions come first, then the theorems settling the claims C1 .. C10.
-/

namespace EAST

/-! ## Generic helpers: decimal rendering of integers, substring search -/

/-- Decimal digit character for `n < 10` (models Python string formatting of digits). -/
def digitChar (n : Nat) : Char := Char.ofNat (48 + n)

/-- Digit expansion worker, structurally recursive on a fuel bound so that it reduces
inside the kernel; `fuel = n + 1` always exceeds the number of decimal digits. -/
def natCharsAux : Nat → Nat → List Char
  | 0, _ => []
  | fuel + 1, n =>
    if n < 10 then [digitChar n]
    else natCharsAux fuel (n / 10) ++ [digitChar (n % 10)]

/-- Decimal digits of a natural number, most significant first.
Models Python `str` applied to a non-negative `int`. -/
def natChars (n : Nat) : List Char := natCharsAux (n + 1) n

/-- Decimal string of a natural number; models Python `str(n)` for `n ≥ 0`. -/
def natStr (n : Nat) : String := ⟨natChars n⟩

/-- Decimal string of an integer; models Python `str` on `int`. -/
def intStr (i : Int) : String :=
  if i < 0 then "-" ++ natStr i.natAbs else natStr i.toNat

/-- Occurrence test for a contiguous subsequence, models the Python `in` operator on
`str`/`bytes` (note: an empty needle is contained in everything, as in Python). -/
def containsSeq {α : Type} [DecidableEq α] (l s : List α) : Bool :=
  s.isPrefixOf l ||
    match l with
    | [] => false
    | _ :: t => containsSeq t s

/-- Split at the first occurrence of `sep`, returning the parts before and after it.
Models Python `partition` (restricted to the case where `sep` occurs, else `none`);
`(containsSeq l s).isSome`-style use also models the `in` test for nonempty `sep`. -/
def splitOnceSeq {α : Type} [DecidableEq α] (sep : List α) : List α → Option (List α × List α)
  | [] => if sep.isPrefixOf ([] : List α) then some ([], []) else none
  | a :: t =>
    if sep.isPrefixOf (a :: t) then some ([], (a :: t).drop sep.length)
    else
      match splitOnceSeq sep t with
      | some (x, y) => some (a :: x, y)
      | none => none

/-- Python `str.startswith`. -/
def pyStartsWith (s p : String) : Bool := p.toList.isPrefixOf s.toList

/-- Python `str.endswith`. -/
def pyEndsWith (s p : String) : Bool := p.toList.isSuffixOf s.toList

/-- Python `str.isdigit`, restricted to the ASCII digits relevant here. -/
def pyIsDigit (s : String) : Bool := !s.toList.isEmpty && s.toList.all Char.isDigit

/-- Python `sub in s` on strings. -/
def pyContains (s sub : String) : Bool := containsSeq s.toList sub.toList

/-- Accumulating loop `for i in range(n): acc += f i`, as used by the pipeline builder. -/
def concatMapRange (f : Nat → List String) : Nat → List String
  | 0 => []
  | n + 1 => concatMapRange f n ++ f n

/-! ## Compositor grid (`build_compositor_props`, main.py lines 273-294) -/

/-- Models `math.ceil(math.sqrt n)` from `build_compositor_props`.  For the stream counts
the worker accepts, the float square root is exact enough that the Python expression
agrees with the integer ceiling square root embedded here. -/
def ceilSqrt (n : Nat) : Nat :=
  if Nat.sqrt n * Nat.sqrt n = n then Nat.sqrt n else Nat.sqrt n + 1

/-- Models `math.ceil(num_streams / grid_cols)` (exact integer ceiling division; the float
division in the source is exact on the representable range used). -/
def ceilDivNat (n c : Nat) : Nat := (n + c - 1) / c

/-- The grid cells `(xpos, ypos, width, height)` computed by `build_compositor_props`:
`grid_cols = ceil(sqrt n)`, `grid_rows = ceil(n / grid_cols)`,
`sub_width = final_width // grid_cols`, `sub_height = final_height // grid_rows`,
cell `i` at column `i % grid_cols`, row `i / grid_cols`. -/
def build_compositor_cells (num_streams final_width final_height : Nat) :
    List (Nat × Nat × Nat × Nat) :=
  let grid_cols := ceilSqrt num_streams
  let grid_rows := ceilDivNat num_streams grid_cols
  let sub_width := final_width / grid_cols
  let sub_height := final_height / grid_rows
  (List.range num_streams).map fun i =>
    ((i % grid_cols) * sub_width, (i / grid_cols) * sub_height, sub_width, sub_height)

/-- The whitespace-separated tokens of the compositor property string built by
`build_compositor_props` (the source builds `f"sink_i::xpos=…"` fragments, joins them
with spaces and later splits on whitespace; the token list is embedded directly). -/
def build_compositor_props (num_streams final_width final_height : Nat) : List String :=
  concatMapRange
    (fun i =>
      let cell := (build_compositor_cells num_streams final_width final_height).getD i
        (0, 0, 0, 0)
      ["sink_" ++ (natStr i ++ "::xpos=" ++ natStr cell.1),
       "sink_" ++ (natStr i ++ "::ypos=" ++ natStr cell.2.1),
       "sink_" ++ (natStr i ++ "::width=" ++ natStr cell.2.2.1),
       "sink_" ++ (natStr i ++ "::height=" ++ natStr cell.2.2.2)])
    num_streams

/-! ## Pipeline description builder (`build_pipeline`, main.py lines 306-477) -/

/-- The arguments of `build_pipeline` together with the process-wide `args` globals it
reads (`args.number_of_streams`, `args.width_limit`, `args.height_limit`; `main` always
passes `number_of_streams=args.number_of_streams`, so a single field models both). -/
structure BuildArgs where
  tcp_port : Nat
  input : String
  model_full_path : String
  model_label_path : Option String
  model_proc_path : Option String
  device : String
  decode_device : String
  batch_size : Nat
  number_of_streams : Nat
  width_limit : Nat
  height_limit : Nat

/-- Python `input.endswith((".mp4", ".avi", ".mov"))`. -/
def isVideoFile (input : String) : Bool :=
  pyEndsWith input ".mp4" || pyEndsWith input ".avi" || pyEndsWith input ".mov"

/-- `is_webcam_input` (main.py lines 297-303): device path, bare digit string, or
anything that is neither a known video-file extension nor an `rtsp://` URL. -/
def is_webcam_input (input_source : String) : Bool :=
  pyStartsWith input_source "/dev/video" ||
  pyIsDigit input_source ||
  (!isVideoFile input_source && !pyStartsWith input_source "rtsp://")

/-- The `source_command` token list of `build_pipeline` (lines 326-347). -/
def source_command (a : BuildArgs) : List String :=
  if isVideoFile a.input then
    ["multifilesrc", "location=" ++ a.input, "loop=true"]
  else if pyStartsWith a.input "rtsp://" then
    ["rtspsrc", "location=" ++ a.input, "protocols=tcp"]
  else
    let device_path :=
      if pyStartsWith a.input "/dev/video" then a.input else "/dev/video" ++ a.input
    if 1 < a.number_of_streams then
      ["v4l2src", "device=" ++ device_path, "!", "videoconvert", "!",
       "tee", "name=camtee", "!", "multiqueue", "name=camq"]
    else
      ["v4l2src", "device=" ++ device_path]

/-- The `decode_element` token list of `build_pipeline` (lines 349-380). -/
def decode_element (a : BuildArgs) : List String :=
  if is_webcam_input a.input then
    ["videoconvert", "!", "video/x-raw"]
  else if isVideoFile a.input then
    ["decodebin3", "!", "videoconvert", "!", "video/x-raw"]
  else if pyStartsWith a.input "rtsp://" then
    if pyContains a.decode_device "GPU" then
      ["rtph264depay", "!", "avdec_h264", "!", "vapostproc", "!",
       "video/x-raw(memory:VAMemory)"]
    else
      ["rtph264depay", "!", "avdec_h264", "!", "videoconvert", "!", "video/x-raw"]
  else
    ["decodebin3", "!", "videoconvert", "!", "video/x-raw"]

/-- The `inference_command` token list of `build_pipeline` (lines 387-405). -/
def inference_command (a : BuildArgs) : List String :=
  ["gvaclassify", "model=" ++ a.model_full_path, "device=" ++ a.device,
   "inference-region=full-frame"]
  ++ (match a.model_label_path with
      | some l => ["labels-file=" ++ l]
      | none => [])
  ++ (match a.model_proc_path with
      | some p => ["model-proc=" ++ p]
      | none => [])
  ++ (if pyContains a.decode_device "GPU" && pyContains a.device "GPU" then
        ["batch-size=" ++ natStr a.batch_size, "nireq=4",
         "pre-process-backend=va-surface-sharing"]
      else if pyContains a.decode_device "GPU" && pyContains a.device "CPU" then
        ["pre-process-backend=va"]
      else [])

/-- The per-branch trailing tokens shared by both composition forms (lines 442-452 and
462-473): queue, telemetry (`gvafpscounter`), overlay (`gvawatermark`), colorspace
conversion, and the named compositor input. -/
def branchTail (i : Nat) : List String :=
  ["!", "queue", "!", "gvafpscounter", "!", "gvawatermark", "!", "videoconvert", "!",
   "comp.sink_" ++ natStr i]

/-- The compositor/encoder/TCP-sink header of the pipeline (lines 413-421). -/
def pipelineHeader (a : BuildArgs) : List String :=
  ["gst-launch-1.0", "compositor", "name=comp"]
  ++ build_compositor_props a.number_of_streams a.width_limit a.height_limit
  ++ ["!", "jpegenc", "!", "multipartmux", "boundary=frame", "!",
      "tcpserversink", "host=127.0.0.1", "port=" ++ natStr a.tcp_port]

/-- `build_pipeline` (lines 306-477): compositor/sink header, then either one shared
capture feeding `stream_count` fan-out branches (only when the raw input string starts
with `"/dev/video"` and `number_of_streams > 1`), or `stream_count` copies of the full
source chain. -/
def build_pipeline (a : BuildArgs) : List String :=
  if pyStartsWith a.input "/dev/video" && decide (1 < a.number_of_streams) then
    pipelineHeader a ++ source_command a
    ++ concatMapRange
        (fun i =>
          ["camtee.", "!", "queue", "max-size-buffers=10", "leaky=downstream", "!"]
          ++ decode_element a ++ ["!"] ++ inference_command a ++ branchTail i)
        a.number_of_streams
  else
    pipelineHeader a
    ++ concatMapRange
        (fun i =>
          source_command a ++ ["!"] ++ decode_element a ++ ["!"]
          ++ inference_command a ++ branchTail i)
        a.number_of_streams

/-- A concrete configuration: camera-classified source `"0"` (a bare digit string) with
two streams, used to separate camera classification from the `"/dev/video"` test. -/
def c1CounterArgs : BuildArgs where
  tcp_port := 5000
  input := "0"
  model_full_path := "m.xml"
  model_label_path := none
  model_proc_path := none
  device := "CPU"
  decode_device := "CPU"
  batch_size := 1
  number_of_streams := 2
  width_limit := 640
  height_limit := 480

/-! ## Model locator (`get_model_path`, main.py lines 221-270) -/

/-- The filesystem, abstracted to the read-only probes `get_model_path` performs:
existence of a path, existence of a directory, and the result of globbing a directory
for `*.xml` files (in glob order; `main.py` takes the first match). -/
structure FileSystem where
  pathExists : String → Bool
  dirExists : String → Bool
  xmlFiles : String → List String

/-- `CUSTOM_MODELS_DIR` (main.py line 66). -/
def CUSTOM_MODELS_DIR : String := "../custom_models/image-classification"

/-- The primary weights path `model_parent_dir/model_name/precision/model_name.xml`. -/
def primaryModelPath (model_parent_dir model_name precision : String) : String :=
  model_parent_dir ++ "/" ++ model_name ++ "/" ++ precision ++ "/" ++ model_name ++ ".xml"

/-- The precision directory `model_parent_dir/model_name/precision`. -/
def primaryModelDir (model_parent_dir model_name precision : String) : String :=
  model_parent_dir ++ "/" ++ model_name ++ "/" ++ precision

/-- The custom-models directory for a model name. -/
def customModelDir (model_name : String) : String :=
  CUSTOM_MODELS_DIR ++ "/" ++ model_name

/-- `get_model_path` (main.py lines 221-270): probe the primary layout first, falling
back to per-model labels/model-proc in the parent directory; otherwise glob the custom
models directory for any `*.xml`; return `(None, None, None)` when no weights file is
found anywhere. -/
def get_model_path (fs : FileSystem) (model_parent_dir model_name precision : String) :
    Option String × Option String × Option String :=
  let model_dir := primaryModelDir model_parent_dir model_name precision
  let model_path := primaryModelPath model_parent_dir model_name precision
  let labels_path := model_dir ++ "/labels.txt"
  let model_proc_path := model_dir ++ "/model-proc.json"
  if fs.pathExists model_path then
    let parent_labels := model_parent_dir ++ "/" ++ model_name ++ "/labels.txt"
    let parent_model_proc := model_parent_dir ++ "/" ++ model_name ++ "/model-proc.json"
    let labels :=
      if fs.pathExists labels_path then some labels_path
      else if fs.pathExists parent_labels then some parent_labels
      else none
    let proc :=
      if fs.pathExists model_proc_path then some model_proc_path
      else if fs.pathExists parent_model_proc then some parent_model_proc
      else none
    (some model_path, labels, proc)
  else
    let custom_model_dir := customModelDir model_name
    if fs.dirExists custom_model_dir then
      match fs.xmlFiles custom_model_dir with
      | [] => (none, none, none)
      | x :: _ =>
        let custom_labels := custom_model_dir ++ "/labels.txt"
        let custom_proc := custom_model_dir ++ "/model-proc.json"
        (some x,
         if fs.pathExists custom_labels then some custom_labels else none,
         if fs.pathExists custom_proc then some custom_proc else none)
    else (none, none, none)

/-- An empty filesystem (no paths, no directories, no glob results). -/
def emptyFS : FileSystem where
  pathExists := fun _ => false
  dirExists := fun _ => false
  xmlFiles := fun _ => []

/-! ## Status notifier (`is_valid_id` / `update_payload_status`, main.py lines 69-104) -/

/-- `is_valid_id` (lines 69-71): the identifier is an `int` (guaranteed by the embedded
type) and strictly positive. -/
def is_valid_id (workload_id : Int) : Bool := decide (0 < workload_id)

/-- One attempted outbound PATCH request: its target URL and its JSON body
`{"status": status, "port": port}`. -/
structure PatchCall where
  url : String
  status : String
  port : Nat
deriving DecidableEq

/-- The `(scheme, netloc, path)` components of `urllib.parse.urlparse`, modelled at the
interface of that external library for the absolute `scheme://host:port/path` URLs the
notifier composes (the only shape it is applied to in the source). -/
def urlparseSNP (u : String) : String × String × String :=
  match splitOnceSeq "://".toList u.toList with
  | none => ("", "", u)
  | some (sch, rest) =>
    (⟨sch⟩, ⟨rest.takeWhile (fun c => c ≠ '/')⟩, ⟨rest.dropWhile (fun c => c ≠ '/')⟩)

/-- `update_payload_status` (lines 74-104).  Effects are made explicit: the returned
list records the PATCH requests attempted (the source issues at most one), `net` stands
for the outcome of that request (`requests.patch` + `raise_for_status`), and the
`Except` result is `.error` only if an exception escapes the function — the source
catches `RequestException` and merely logs it, which the final `match` mirrors. -/
def update_payload_status (workload_id : Int) (status : String) (args_port : Nat)
    (net : Except String Unit) : Except String (List PatchCall) :=
  if !is_valid_id workload_id then .ok []
  else
    let path := "/api/workloads/" ++ intStr workload_id
    let composed_url := "http" ++ "://" ++ "127.0.0.1:8080" ++ path
    let parsed := urlparseSNP composed_url
    if parsed.1 ≠ "http" ∨ parsed.2.1 ≠ "127.0.0.1:8080" then .ok []
    else if pyContains path ".." || pyContains path "//" || pyContains path " " then .ok []
    else
      match net with
      | .ok _ => .ok [⟨composed_url, status, args_port⟩]
      | .error _ => .ok [⟨composed_url, status, args_port⟩]

/-! ## Process supervisor (`main`, main.py lines 560-595)

The supervisor is embedded as a state machine.  `main` locates the model once; on
failure it notifies `error` and returns (the thread halts).  On success it enters
`while True: build_pipeline; run_pipeline; sleep(5)`.  `run_pipeline` spawns the
process, drains it, and swallows every exception, so the loop advances to the fixed
5-second sleep regardless of the exit code or of a raise while draining. -/

inductive SupPhase
  | locating
  | building
  | running
  | draining
  | cooldown
  | halted
deriving DecidableEq

structure SupState where
  phase : SupPhase
  locateCalls : Nat
  buildCalls : Nat
  sleeps : List Nat
deriving DecidableEq

def supInit : SupState := ⟨.locating, 0, 0, []⟩

/-- One step of the supervisor.  `modelFound` is the outcome of the single
`get_model_path` probe; `drainExit` is the exit code observed when the drained process
terminates (or a sentinel for a raise) — it is deliberately ignored by the transition,
exactly as `main` continues to the sleep for any exit code and any exception. -/
def supStep (modelFound : Bool) (_drainExit : Int) (s : SupState) : SupState :=
  match s.phase with
  | .locating =>
    if modelFound then { s with phase := .building, locateCalls := s.locateCalls + 1 }
    else { s with phase := .halted, locateCalls := s.locateCalls + 1 }
  | .building => { s with phase := .running, buildCalls := s.buildCalls + 1 }
  | .running => { s with phase := .draining }
  | .draining => { s with phase := .cooldown }
  | .cooldown => { s with phase := .building, sleeps := s.sleeps ++ [5] }
  | .halted => s

/-- The supervisor after `k` steps, for a given locate outcome and exit-code stream. -/
def supRun (modelFound : Bool) (exits : Nat → Int) : Nat → SupState
  | 0 => supInit
  | k + 1 => supStep modelFound (exits k) (supRun modelFound exits k)

/-! ## Metrics extractor (`filter_result`, main.py lines 522-557)

The regular expression
`FpsCounter\(.*\): total=(\d+\.\d+) fps, number-streams=(\d+), per-stream=(\d+\.\d+) fps(?: \((.*?)\))?`
is embedded as an explicit matcher with `re.search` semantics: leftmost starting
position wins; at that position the greedy `.*` (which cannot cross a newline) takes
the longest extent that lets the rest of the pattern match; the trailing optional group
captures, lazily, up to the first `)`.  Rates are parsed as exact rationals instead of
binary floats; every decimal literal relevant to the claims is exactly representable. -/

/-- Numeric value of a digit run (most significant first). -/
def digitsToNat (ds : List Char) : Nat :=
  ds.foldl (fun acc c => acc * 10 + (c.toNat - 48)) 0

/-- Greedy `\d+`: the maximal leading digit run, requiring at least one digit. -/
def parseNat (l : List Char) : Option (Nat × List Char) :=
  let ds := l.takeWhile Char.isDigit
  if ds.isEmpty then none else some (digitsToNat ds, l.dropWhile Char.isDigit)

/-- Greedy `\d+\.\d+` as an exact rational (one `mkRat` over the scaled digits). -/
def parseFixed (l : List Char) : Option (ℚ × List Char) :=
  match parseNat l with
  | none => none
  | some (ip, rest) =>
    match rest with
    | '.' :: rest2 =>
      let fd := rest2.takeWhile Char.isDigit
      if fd.isEmpty then none
      else some (mkRat (ip * 10 ^ fd.length + digitsToNat fd) (10 ^ fd.length),
                 rest2.dropWhile Char.isDigit)
    | _ => none

/-- Match a literal piece of the pattern. -/
def expectLit (lit l : List Char) : Option (List Char) :=
  if lit.isPrefixOf l then some (l.drop lit.length) else none

/-- The part of the pattern after `FpsCounter\(.*`: groups 1-3 and the optional
parenthesized group 4. -/
def matchTail (l : List Char) : Option (ℚ × Nat × ℚ × Option (List Char)) :=
  match expectLit "): total=".toList l with
  | none => none
  | some l1 =>
    match parseFixed l1 with
    | none => none
    | some (total, l2) =>
      match expectLit " fps, number-streams=".toList l2 with
      | none => none
      | some l3 =>
        match parseNat l3 with
        | none => none
        | some (ns, l4) =>
          match expectLit ", per-stream=".toList l4 with
          | none => none
          | some l5 =>
            match parseFixed l5 with
            | none => none
            | some (avg, l6) =>
              match expectLit " fps".toList l6 with
              | none => none
              | some l7 =>
                match l7 with
                | ' ' :: '(' :: l8 =>
                  match splitOnceSeq [')'] l8 with
                  | some (grp, _) =>
                    if '\n' ∈ grp then some (total, ns, avg, none)
                    else some (total, ns, avg, some grp)
                  | none => some (total, ns, avg, none)
                | _ => some (total, ns, avg, none)

/-- Backtracking for the greedy `.*` after `FpsCounter(`: longest split first, never
crossing a newline. -/
def tryFrom (m : List Char) : Option (ℚ × Nat × ℚ × Option (List Char)) :=
  (List.range (m.length + 1)).reverse.findSome? fun j =>
    if '\n' ∈ m.take j then none else matchTail (m.drop j)

/-- `re.search` over the whole line: leftmost occurrence of `FpsCounter(` from which
the rest of the pattern matches. -/
def fps_search (l : List Char) : Option (ℚ × Nat × ℚ × Option (List Char)) :=
  (List.range (l.length + 1)).findSome? fun p =>
    if "FpsCounter(".toList.isPrefixOf (l.drop p) then
      tryFrom ((l.drop p).drop "FpsCounter(".toList.length)
    else none

/-- Python `str.split(",")`. -/
def splitCommas : List Char → List (List Char)
  | [] => [[]]
  | c :: t =>
    if c = ',' then [] :: splitCommas t
    else
      match splitCommas t with
      | [] => [[c]]
      | x :: xs => (c :: x) :: xs

/-- Python `str.strip()`. -/
def pyStrip (l : List Char) : List Char :=
  ((l.dropWhile Char.isWhitespace).reverse.dropWhile Char.isWhitespace).reverse

/-- The scaled numerator/denominator of a decimal fixed-point literal, or `none` if
the text is not one. -/
def pyFloatParts (r : List Char) : Option (Nat × Nat) :=
  let ip := r.takeWhile Char.isDigit
  let r1 := r.dropWhile Char.isDigit
  match r1 with
  | [] => if ip.isEmpty then none else some (digitsToNat ip, 1)
  | '.' :: r2 =>
    let fd := r2.takeWhile Char.isDigit
    let r3 := r2.dropWhile Char.isDigit
    if !r3.isEmpty then none
    else if ip.isEmpty && fd.isEmpty then none
    else some (digitsToNat ip * 10 ^ fd.length + digitsToNat fd, 10 ^ fd.length)
  | _ => none

/-- Python `float(...)`, modelled for the decimal fixed-point forms (with optional
sign) that the pipeline's log lines can carry; anything else raises, i.e. `none`. -/
def pyFloat (l : List Char) : Option ℚ :=
  match l with
  | '-' :: r => (pyFloatParts r).map fun nd => mkRat (-(nd.1 : Int)) nd.2
  | '+' :: r => (pyFloatParts r).map fun nd => mkRat nd.1 nd.2
  | r => (pyFloatParts r).map fun nd => mkRat nd.1 nd.2

instance {ε α : Type} [DecidableEq ε] [DecidableEq α] : DecidableEq (Except ε α) :=
  fun a b =>
  match a, b with
  | .ok x, .ok y =>
    match decEq x y with
    | isTrue h => isTrue (h ▸ rfl)
    | isFalse h => isFalse fun c => h (Except.ok.inj c)
  | .error x, .error y =>
    match decEq x y with
    | isTrue h => isTrue (h ▸ rfl)
    | isFalse h => isFalse fun c => h (Except.error.inj c)
  | .ok _, .error _ => isFalse fun c => Except.noConfusion c
  | .error _, .ok _ => isFalse fun c => Except.noConfusion c

/-- The snapshot produced by `filter_result`, with `time.time()` made explicit. -/
structure FpsMetrics where
  total_fps : ℚ
  number_streams : Nat
  average_fps_per_stream : ℚ
  fps_streams : List (String × ℚ)
  timestamp : ℚ
deriving DecidableEq

/-- The 1-based stream key `f"stream_id {i+1}"`. -/
def mkStreamKey (i : Nat) : String := "stream_id " ++ natStr (i + 1)

/-- Assemble the returned dict: per-stream list truncated to `number_streams`, keys
1-based in list order. -/
def mkMetrics (total : ℚ) (ns : Nat) (avg : ℚ) (fps : List ℚ) (now : ℚ) : FpsMetrics :=
  { total_fps := total
    number_streams := ns
    average_fps_per_stream := avg
    fps_streams := (fps.take ns).enum.map fun iv => (mkStreamKey iv.1, iv.2)
    timestamp := now }

/-- `filter_result` (lines 522-557).  `.ok none` models `return None` (no match);
`.error ()` models the `ValueError` that `float` raises on a malformed per-stream
entry; `now` stands for `time.time()`.  An empty captured group is falsy in Python, so
it falls back to the single-entry list, like an absent group. -/
def filter_result (output : String) (now : ℚ) : Except Unit (Option FpsMetrics) :=
  match fps_search output.toList with
  | none => .ok none
  | some (total, ns, avg, grp) =>
    match grp with
    | some g =>
      if g.isEmpty then .ok (some (mkMetrics total ns avg [avg] now))
      else
        match (splitCommas g).mapM fun s => pyFloat (pyStrip s) with
        | none => .error ()
        | some all_streams_fps => .ok (some (mkMetrics total ns avg all_streams_fps now))
    | none => .ok (some (mkMetrics total ns avg [avg] now))

/-- One stdout line of `run_pipeline`'s first drain loop (lines 496-500): on a match
the shared snapshot is replaced wholesale, otherwise it is left untouched; an exception
from `filter_result` propagates out of the loop. -/
def processLine (state : Option FpsMetrics) (line : String) (now : ℚ) :
    Except Unit (Option FpsMetrics) :=
  match filter_result line now with
  | .error e => .error e
  | .ok none => .ok state
  | .ok (some m) => .ok (some m)

/-! ## Stream relay (`mjpeg_stream`, main.py lines 598-629) -/

/-- The CRLFCRLF frame boundary of the upstream protocol, as bytes. -/
def boundaryBytes : List Nat := [13, 10, 13, 10]

/-- Bytes of an ASCII string literal. -/
def strBytes (s : String) : List Nat := s.toList.map Char.toNat

/-- One emitted multipart part: fixed header, re-encoded JPEG payload, trailing CRLF. -/
def mjpegPart (jpeg : List Nat) : List Nat :=
  strBytes "--frame\r\nContent-Type: image/jpeg\r\n\r\n" ++ jpeg ++ [13, 10]

/-- The inner `while b"\r\n\r\n" in buffer` loop of `mjpeg_stream`, processing one
buffer: split off boundary-delimited frames, decode each (`cv2.imdecode`, abstracted as
`dec`; `None`/exception means the frame is silently skipped), re-encode (`cv2.imencode`,
abstracted as `enc`) and emit a part; the un-terminated remainder stays in the buffer.
The fuel argument only bounds recursion depth; `mjpeg_stream_drain` supplies enough
fuel that it never runs out (each split consumes at least the 4 boundary bytes). -/
def drainFramesF (dec : List Nat → Option (List Nat)) (enc : List Nat → List Nat) :
    Nat → List Nat → List (List Nat) × List Nat
  | 0, buf => ([], buf)
  | fuel + 1, buf =>
    match splitOnceSeq boundaryBytes buf with
    | none => ([], buf)
    | some (frame, rest) =>
      let pr := drainFramesF dec enc fuel rest
      match dec frame with
      | none => pr
      | some image => (mjpegPart (enc image) :: pr.1, pr.2)

/-- Frame extraction for one buffer-full, as performed by `mjpeg_stream`. -/
def mjpeg_stream_drain (dec : List Nat → Option (List Nat)) (enc : List Nat → List Nat)
    (buf : List Nat) : List (List Nat) × List Nat :=
  drainFramesF dec enc buf.length buf

/-! ## HTTP result endpoint (`get_mjpeg_stream`, main.py lines 632-648) -/

inductive StreamBody
  | frames (parts : List (List Nat))
  | errored
deriving DecidableEq

inductive ResultResponse
  | streaming (mediaType : String) (body : StreamBody)
  | jsonError (status : Bool) (message : String)
deriving DecidableEq

/-- The `GET /result` handler together with the generator semantics of
`mjpeg_stream`: calling `mjpeg_stream(port=...)` creates a suspended generator without
executing any of its body, so the TCP connection — and any connection failure — happens
only when the server iterates the response body, after the handler has returned.
Constructing the `StreamingResponse` raises nothing, so the `except` branch that would
return the JSON envelope `{"status": False, "message": ...}` is unreachable; `connect`
is the outcome of the deferred connection attempt, surfacing either as streamed frames
or as an error in mid-stream. -/
def get_mjpeg_stream_route (connect : Except String (List (List Nat))) : ResultResponse :=
  ResultResponse.streaming "multipart/x-mixed-replace; boundary=frame"
    (match connect with
     | .ok parts => .frames parts
     | .error _ => .errored)

/-! ## Drain ordering of `run_pipeline` (main.py lines 489-519) -/

inductive DrainEvent
  | outLine (line : String)
  | errLine (line : String)
deriving DecidableEq

/-- The order in which `run_pipeline` reads the two channels: the
`for line in process.stdout` loop runs to exhaustion strictly before the
`for error_line in process.stderr` loop starts — sequentially, not concurrently. -/
def run_pipeline_trace (outs errs : List String) : List DrainEvent :=
  outs.map DrainEvent.outLine ++ errs.map DrainEvent.errLine

/-- The metrics state after draining: folded over stdout lines only; stderr lines are
logged and never reach the extractor. -/
def run_pipeline_metrics (s0 : Option FpsMetrics) (outs : List String) (now : ℚ) :
    Except Unit (Option FpsMetrics) :=
  outs.foldlM (fun s line => processLine s line now) s0

/-- The observable draining behaviour: read-event order plus resulting metrics. -/
def run_pipeline_model (s0 : Option FpsMetrics) (outs errs : List String) (now : ℚ) :
    List DrainEvent × Except Unit (Option FpsMetrics) :=
  (run_pipeline_trace outs errs, run_pipeline_metrics s0 outs now)

end EAST

namespace EAST

/-! ## Theorems about the compositor grid -/

theorem ceilSqrt_pos {n : Nat} (hn : 1 ≤ n) : 1 ≤ ceilSqrt n := by
  unfold ceilSqrt
  split
  · rename_i h
    rcases Nat.eq_zero_or_pos (Nat.sqrt n) with h0 | h1
    · rw [h0] at h; omega
    · exact h1
  · omega

/-- C5: for every stream count `n ≥ 1` and configured total width and height, the
compositor layout has exactly `n` cells; the column count is the least `c` with
`n ≤ c * c` (i.e. `⌈√n⌉`), the row count is the least `r` with `n ≤ r * cols`
(i.e. `⌈n / cols⌉`), each cell is `width = ⌊W / cols⌋`, `height = ⌊H / rows⌋`, and
cell `i` sits at `x = (i % cols) * width`, `y = (i / cols) * height` (row-major). -/
theorem c5_compositor_grid (n W H : Nat) (hn : 1 ≤ n) :
    (build_compositor_cells n W H).length = n
    ∧ (n ≤ ceilSqrt n * ceilSqrt n ∧ (ceilSqrt n - 1) * (ceilSqrt n - 1) < n)
    ∧ (n ≤ ceilDivNat n (ceilSqrt n) * ceilSqrt n
        ∧ (ceilDivNat n (ceilSqrt n) - 1) * ceilSqrt n < n)
    ∧ (∀ i, (h : i < n) →
        (build_compositor_cells n W H).get ⟨i, by simpa [build_compositor_cells] using h⟩ =
          ((i % ceilSqrt n) * (W / ceilSqrt n),
           (i / ceilSqrt n) * (H / ceilDivNat n (ceilSqrt n)),
           W / ceilSqrt n, H / ceilDivNat n (ceilSqrt n))) := by
  have hc : 1 ≤ ceilSqrt n := ceilSqrt_pos hn
  refine ⟨by simp [build_compositor_cells], ⟨?_, ?_⟩, ⟨?_, ?_⟩, ?_⟩
  · unfold ceilSqrt
    split
    · rename_i h; omega
    · have h2 : n < (Nat.sqrt n + 1) * (Nat.sqrt n + 1) := Nat.lt_succ_sqrt n
      omega
  · unfold ceilSqrt
    split
    · rename_i h
      have hs1 : 1 ≤ Nat.sqrt n := by
        rcases Nat.eq_zero_or_pos (Nat.sqrt n) with h0 | h1
        · rw [h0] at h; omega
        · exact h1
      have hle : (Nat.sqrt n - 1) * (Nat.sqrt n - 1) < Nat.sqrt n * Nat.sqrt n := by
        have h1 : Nat.sqrt n - 1 < Nat.sqrt n := by omega
        calc (Nat.sqrt n - 1) * (Nat.sqrt n - 1)
            ≤ (Nat.sqrt n - 1) * Nat.sqrt n := Nat.mul_le_mul_left _ (by omega)
          _ < Nat.sqrt n * Nat.sqrt n := Nat.mul_lt_mul_of_lt_of_le h1 (le_refl _) (by omega)
      omega
    · rename_i h
      have := Nat.sqrt_le n
      simp only [Nat.add_sub_cancel]
      omega
  · have h1 : ceilDivNat n (ceilSqrt n) = (n - 1) / ceilSqrt n + 1 := by
      unfold ceilDivNat
      have : n + ceilSqrt n - 1 = (n - 1) + ceilSqrt n := by omega
      rw [this, Nat.add_div_right _ hc]
    rw [h1]
    have hdm : (n - 1) / ceilSqrt n * ceilSqrt n + (n - 1) % ceilSqrt n = n - 1 := by
      rw [Nat.mul_comm]; exact Nat.div_add_mod (n - 1) (ceilSqrt n)
    have hmlt : (n - 1) % ceilSqrt n < ceilSqrt n := Nat.mod_lt _ hc
    have hexp : ((n - 1) / ceilSqrt n + 1) * ceilSqrt n
        = (n - 1) / ceilSqrt n * ceilSqrt n + ceilSqrt n := by ring
    omega
  · have h1 : ceilDivNat n (ceilSqrt n) = (n - 1) / ceilSqrt n + 1 := by
      unfold ceilDivNat
      have : n + ceilSqrt n - 1 = (n - 1) + ceilSqrt n := by omega
      rw [this, Nat.add_div_right _ hc]
    rw [h1]
    simp only [Nat.add_sub_cancel]
    have := Nat.div_mul_le_self (n - 1) (ceilSqrt n)
    omega
  · intro i h
    simp [build_compositor_cells]

/-- Witness for C5 at `n = 3`, `W = 640`, `H = 480`. -/
theorem c5_compositor_grid_witness :
    (build_compositor_cells 3 640 480).length = 3
    ∧ (3 ≤ ceilSqrt 3 * ceilSqrt 3 ∧ (ceilSqrt 3 - 1) * (ceilSqrt 3 - 1) < 3) :=
  ⟨(c5_compositor_grid 3 640 480 (by decide)).1,
   (c5_compositor_grid 3 640 480 (by decide)).2.1⟩

/-! ## Theorems about the pipeline builder (C1)

Token-count machinery: everything is reduced to counting distinguished stage tokens in
the built token list. -/

theorem strPre_ne {p t : String} (hm : t.toList.take p.toList.length ≠ p.toList)
    (s : String) : p ++ s ≠ t := by
  intro h
  apply hm
  rw [← h]
  have hl : (p ++ s).toList = p.toList ++ s.toList := by simp [String.toList]
  rw [hl, List.take_left]

theorem count_zero_of_ne {l : List String} {t : String} (h : ∀ x ∈ l, t ≠ x) :
    l.count t = 0 :=
  List.count_eq_zero.mpr fun hm => h t hm rfl

theorem count_concatMapRange (f : Nat → List String) (t : String) (c : Nat)
    (h : ∀ i, (f i).count t = c) : ∀ n, (concatMapRange f n).count t = n * c
  | 0 => by simp [concatMapRange]
  | n + 1 => by
    simp [concatMapRange, List.count_append, count_concatMapRange f t c h n, h n,
      Nat.succ_mul]

theorem count_compProps {t : String} (h : ∀ s, t ≠ "sink_" ++ s) (n W H : Nat) :
    (build_compositor_props n W H).count t = 0 := by
  have h' : ∀ s, "sink_" ++ s ≠ t := fun s => (h s).symm
  unfold build_compositor_props
  have hz := count_concatMapRange
    (fun i =>
      let cell := (build_compositor_cells n W H).getD i (0, 0, 0, 0)
      ["sink_" ++ (natStr i ++ "::xpos=" ++ natStr cell.1),
       "sink_" ++ (natStr i ++ "::ypos=" ++ natStr cell.2.1),
       "sink_" ++ (natStr i ++ "::width=" ++ natStr cell.2.2.1),
       "sink_" ++ (natStr i ++ "::height=" ++ natStr cell.2.2.2)])
    t 0 (fun i => by simp [List.count_cons, h, h']) n
  simpa using hz

theorem count_header {t : String} (hsink : ∀ s, t ≠ "sink_" ++ s)
    (hport : ∀ s, t ≠ "port=" ++ s)
    (hlit : ∀ x ∈ (["gst-launch-1.0", "compositor", "name=comp", "!", "jpegenc",
      "multipartmux", "boundary=frame", "tcpserversink", "host=127.0.0.1"] : List String),
      t ≠ x) (a : BuildArgs) : (pipelineHeader a).count t = 0 := by
  unfold pipelineHeader
  simp only [List.count_append, count_compProps hsink]
  simp [List.count_cons, hport,
    hlit "gst-launch-1.0" (by decide), hlit "compositor" (by decide),
    hlit "name=comp" (by decide), hlit "!" (by decide), hlit "jpegenc" (by decide),
    hlit "multipartmux" (by decide), hlit "boundary=frame" (by decide),
    hlit "tcpserversink" (by decide), hlit "host=127.0.0.1" (by decide)]

theorem count_source_zero {t : String} (hloc : ∀ s, t ≠ "location=" ++ s)
    (hdev : ∀ s, t ≠ "device=" ++ s)
    (hlit : ∀ x ∈ (["multifilesrc", "loop=true", "rtspsrc", "protocols=tcp", "v4l2src",
      "!", "videoconvert", "tee", "name=camtee", "multiqueue", "name=camq"] : List String),
      t ≠ x) (a : BuildArgs) : (source_command a).count t = 0 := by
  unfold source_command
  split_ifs <;>
    simp [List.count_cons, hloc, hdev,
      hlit "multifilesrc" (by decide), hlit "loop=true" (by decide),
      hlit "rtspsrc" (by decide), hlit "protocols=tcp" (by decide),
      hlit "v4l2src" (by decide), hlit "!" (by decide),
      hlit "videoconvert" (by decide), hlit "tee" (by decide),
      hlit "name=camtee" (by decide), hlit "multiqueue" (by decide),
      hlit "name=camq" (by decide)]

theorem count_source_v4l2src (a : BuildArgs) :
    (source_command a).count "v4l2src" =
      if !isVideoFile a.input && !pyStartsWith a.input "rtsp://"
      then 1 else 0 := by
  have hdev : ∀ s, ("v4l2src" : String) ≠ "device=" ++ s :=
    fun s => Ne.symm (strPre_ne (by decide) s)
  have hloc : ∀ s, ("v4l2src" : String) ≠ "location=" ++ s :=
    fun s => Ne.symm (strPre_ne (by decide) s)
  unfold source_command
  split_ifs <;> simp_all [List.count_cons, hdev, hloc]

theorem count_decode_zero {t : String}
    (hlit : ∀ x ∈ (["videoconvert", "!", "video/x-raw", "decodebin3", "rtph264depay",
      "avdec_h264", "vapostproc", "video/x-raw(memory:VAMemory)"] : List String), t ≠ x)
    (a : BuildArgs) : (decode_element a).count t = 0 := by
  unfold decode_element
  split_ifs <;>
    simp [List.count_cons,
      hlit "videoconvert" (by decide), hlit "!" (by decide),
      hlit "video/x-raw" (by decide), hlit "decodebin3" (by decide),
      hlit "rtph264depay" (by decide), hlit "avdec_h264" (by decide),
      hlit "vapostproc" (by decide), hlit "video/x-raw(memory:VAMemory)" (by decide)]

theorem count_inference_zero {t : String} (hmod : ∀ s, t ≠ "model=" ++ s)
    (hdev : ∀ s, t ≠ "device=" ++ s) (hlab : ∀ s, t ≠ "labels-file=" ++ s)
    (hproc : ∀ s, t ≠ "model-proc=" ++ s) (hbat : ∀ s, t ≠ "batch-size=" ++ s)
    (hlit : ∀ x ∈ (["gvaclassify", "inference-region=full-frame", "nireq=4",
      "pre-process-backend=va-surface-sharing", "pre-process-backend=va"] : List String),
      t ≠ x) (a : BuildArgs) : (inference_command a).count t = 0 := by
  unfold inference_command
  rcases a.model_label_path with _ | l <;> rcases a.model_proc_path with _ | p <;>
    split_ifs <;>
    simp [List.count_cons, List.count_append, hmod, hdev, hlab, hproc, hbat,
      hlit "gvaclassify" (by decide), hlit "inference-region=full-frame" (by decide),
      hlit "nireq=4" (by decide),
      hlit "pre-process-backend=va-surface-sharing" (by decide),
      hlit "pre-process-backend=va" (by decide)]

theorem count_inference_gvaclassify (a : BuildArgs) :
    (inference_command a).count "gvaclassify" = 1 := by
  have hmod : ∀ s, ("gvaclassify" : String) ≠ "model=" ++ s :=
    fun s => Ne.symm (strPre_ne (by decide) s)
  have hdev : ∀ s, ("gvaclassify" : String) ≠ "device=" ++ s :=
    fun s => Ne.symm (strPre_ne (by decide) s)
  have hlab : ∀ s, ("gvaclassify" : String) ≠ "labels-file=" ++ s :=
    fun s => Ne.symm (strPre_ne (by decide) s)
  have hproc : ∀ s, ("gvaclassify" : String) ≠ "model-proc=" ++ s :=
    fun s => Ne.symm (strPre_ne (by decide) s)
  have hbat : ∀ s, ("gvaclassify" : String) ≠ "batch-size=" ++ s :=
    fun s => Ne.symm (strPre_ne (by decide) s)
  unfold inference_command
  rcases a.model_label_path with _ | l <;> rcases a.model_proc_path with _ | p <;>
    split_ifs <;>
    simp [List.count_cons, List.count_append, hmod, hdev, hlab, hproc, hbat]

theorem count_tail_zero {t : String} (hcomp : ∀ s, t ≠ "comp.sink_" ++ s)
    (hlit : ∀ x ∈ (["!", "queue", "gvafpscounter", "gvawatermark", "videoconvert"] :
      List String), t ≠ x) (i : Nat) : (branchTail i).count t = 0 := by
  simp [branchTail, List.count_cons, hcomp,
    hlit "!" (by decide), hlit "queue" (by decide),
    hlit "gvafpscounter" (by decide), hlit "gvawatermark" (by decide),
    hlit "videoconvert" (by decide)]

theorem count_tail_gvafpscounter (i : Nat) :
    (branchTail i).count "gvafpscounter" = 1 := by
  have hcomp : ∀ s, ("gvafpscounter" : String) ≠ "comp.sink_" ++ s :=
    fun s => Ne.symm (strPre_ne (by decide) s)
  simp [branchTail, List.count_cons, hcomp]

theorem count_tail_gvawatermark (i : Nat) :
    (branchTail i).count "gvawatermark" = 1 := by
  have hcomp : ∀ s, ("gvawatermark" : String) ≠ "comp.sink_" ++ s :=
    fun s => Ne.symm (strPre_ne (by decide) s)
  simp [branchTail, List.count_cons, hcomp]

theorem count_fanBranches (a : BuildArgs) (t : String) (c : Nat)
    (h : ∀ i, ((["camtee.", "!", "queue", "max-size-buffers=10", "leaky=downstream", "!"]
      ++ decode_element a ++ ["!"] ++ inference_command a ++ branchTail i) :
      List String).count t = c) :
    (concatMapRange
      (fun i =>
        ["camtee.", "!", "queue", "max-size-buffers=10", "leaky=downstream", "!"]
        ++ decode_element a ++ ["!"] ++ inference_command a ++ branchTail i)
      a.number_of_streams).count t = a.number_of_streams * c :=
  count_concatMapRange _ t c h a.number_of_streams

theorem count_indepBranches (a : BuildArgs) (t : String) (c : Nat)
    (h : ∀ i, ((source_command a ++ ["!"] ++ decode_element a ++ ["!"]
      ++ inference_command a ++ branchTail i) : List String).count t = c) :
    (concatMapRange
      (fun i =>
        source_command a ++ ["!"] ++ decode_element a ++ ["!"]
        ++ inference_command a ++ branchTail i)
      a.number_of_streams).count t = a.number_of_streams * c :=
  count_concatMapRange _ t c h a.number_of_streams

theorem count_pipeline_gvaclassify (a : BuildArgs) :
    (build_pipeline a).count "gvaclassify" = a.number_of_streams := by
  have hH : (pipelineHeader a).count "gvaclassify" = 0 :=
    count_header (fun s => Ne.symm (strPre_ne (by decide) s))
      (fun s => Ne.symm (strPre_ne (by decide) s)) (by decide) a
  have hS : (source_command a).count "gvaclassify" = 0 :=
    count_source_zero (fun s => Ne.symm (strPre_ne (by decide) s))
      (fun s => Ne.symm (strPre_ne (by decide) s)) (by decide) a
  have hD : (decode_element a).count "gvaclassify" = 0 := count_decode_zero (by decide) a
  have hI : (inference_command a).count "gvaclassify" = 1 := count_inference_gvaclassify a
  have hT : ∀ i, (branchTail i).count "gvaclassify" = 0 :=
    fun i => count_tail_zero (fun s => Ne.symm (strPre_ne (by decide) s)) (by decide) i
  unfold build_pipeline
  split_ifs
  · rw [List.count_append, List.count_append,
      count_fanBranches a _ 1 (fun i => by
        simp [List.count_append, List.count_cons, hD, hI, hT])]
    simp [hH, hS]
  · rw [List.count_append,
      count_indepBranches a _ 1 (fun i => by
        simp [List.count_append, List.count_cons, hS, hD, hI, hT])]
    simp [hH]

theorem count_pipeline_gvafpscounter (a : BuildArgs) :
    (build_pipeline a).count "gvafpscounter" = a.number_of_streams := by
  have hH : (pipelineHeader a).count "gvafpscounter" = 0 :=
    count_header (fun s => Ne.symm (strPre_ne (by decide) s))
      (fun s => Ne.symm (strPre_ne (by decide) s)) (by decide) a
  have hS : (source_command a).count "gvafpscounter" = 0 :=
    count_source_zero (fun s => Ne.symm (strPre_ne (by decide) s))
      (fun s => Ne.symm (strPre_ne (by decide) s)) (by decide) a
  have hD : (decode_element a).count "gvafpscounter" = 0 := count_decode_zero (by decide) a
  have hI : (inference_command a).count "gvafpscounter" = 0 :=
    count_inference_zero (fun s => Ne.symm (strPre_ne (by decide) s))
      (fun s => Ne.symm (strPre_ne (by decide) s))
      (fun s => Ne.symm (strPre_ne (by decide) s))
      (fun s => Ne.symm (strPre_ne (by decide) s))
      (fun s => Ne.symm (strPre_ne (by decide) s)) (by decide) a
  have hT : ∀ i, (branchTail i).count "gvafpscounter" = 1 := count_tail_gvafpscounter
  unfold build_pipeline
  split_ifs
  · rw [List.count_append, List.count_append,
      count_fanBranches a _ 1 (fun i => by
        simp [List.count_append, List.count_cons, hD, hI, hT])]
    simp [hH, hS]
  · rw [List.count_append,
      count_indepBranches a _ 1 (fun i => by
        simp [List.count_append, List.count_cons, hS, hD, hI, hT])]
    simp [hH]

theorem count_pipeline_gvawatermark (a : BuildArgs) :
    (build_pipeline a).count "gvawatermark" = a.number_of_streams := by
  have hH : (pipelineHeader a).count "gvawatermark" = 0 :=
    count_header (fun s => Ne.symm (strPre_ne (by decide) s))
      (fun s => Ne.symm (strPre_ne (by decide) s)) (by decide) a
  have hS : (source_command a).count "gvawatermark" = 0 :=
    count_source_zero (fun s => Ne.symm (strPre_ne (by decide) s))
      (fun s => Ne.symm (strPre_ne (by decide) s)) (by decide) a
  have hD : (decode_element a).count "gvawatermark" = 0 := count_decode_zero (by decide) a
  have hI : (inference_command a).count "gvawatermark" = 0 :=
    count_inference_zero (fun s => Ne.symm (strPre_ne (by decide) s))
      (fun s => Ne.symm (strPre_ne (by decide) s))
      (fun s => Ne.symm (strPre_ne (by decide) s))
      (fun s => Ne.symm (strPre_ne (by decide) s))
      (fun s => Ne.symm (strPre_ne (by decide) s)) (by decide) a
  have hT : ∀ i, (branchTail i).count "gvawatermark" = 1 := count_tail_gvawatermark
  unfold build_pipeline
  split_ifs
  · rw [List.count_append, List.count_append,
      count_fanBranches a _ 1 (fun i => by
        simp [List.count_append, List.count_cons, hD, hI, hT])]
    simp [hH, hS]
  · rw [List.count_append,
      count_indepBranches a _ 1 (fun i => by
        simp [List.count_append, List.count_cons, hS, hD, hI, hT])]
    simp [hH]

theorem count_pipeline_camtee (a : BuildArgs) :
    (build_pipeline a).count "camtee." =
      if pyStartsWith a.input "/dev/video" && decide (1 < a.number_of_streams)
      then a.number_of_streams else 0 := by
  have hH : (pipelineHeader a).count "camtee." = 0 :=
    count_header (fun s => Ne.symm (strPre_ne (by decide) s))
      (fun s => Ne.symm (strPre_ne (by decide) s)) (by decide) a
  have hS : (source_command a).count "camtee." = 0 :=
    count_source_zero (fun s => Ne.symm (strPre_ne (by decide) s))
      (fun s => Ne.symm (strPre_ne (by decide) s)) (by decide) a
  have hD : (decode_element a).count "camtee." = 0 := count_decode_zero (by decide) a
  have hI : (inference_command a).count "camtee." = 0 :=
    count_inference_zero (fun s => Ne.symm (strPre_ne (by decide) s))
      (fun s => Ne.symm (strPre_ne (by decide) s))
      (fun s => Ne.symm (strPre_ne (by decide) s))
      (fun s => Ne.symm (strPre_ne (by decide) s))
      (fun s => Ne.symm (strPre_ne (by decide) s)) (by decide) a
  have hT : ∀ i, (branchTail i).count "camtee." = 0 :=
    fun i => count_tail_zero (fun s => Ne.symm (strPre_ne (by decide) s)) (by decide) i
  unfold build_pipeline
  split_ifs
  · rw [List.count_append, List.count_append,
      count_fanBranches a _ 1 (fun i => by
        simp [List.count_append, List.count_cons, hD, hI, hT])]
    simp [hH, hS]
  · rw [List.count_append,
      count_indepBranches a _ 0 (fun i => by
        simp [List.count_append, List.count_cons, hS, hD, hI, hT])]
    simp [hH]

theorem count_pipeline_leaky (a : BuildArgs) :
    (build_pipeline a).count "leaky=downstream" =
      if pyStartsWith a.input "/dev/video" && decide (1 < a.number_of_streams)
      then a.number_of_streams else 0 := by
  have hH : (pipelineHeader a).count "leaky=downstream" = 0 :=
    count_header (fun s => Ne.symm (strPre_ne (by decide) s))
      (fun s => Ne.symm (strPre_ne (by decide) s)) (by decide) a
  have hS : (source_command a).count "leaky=downstream" = 0 :=
    count_source_zero (fun s => Ne.symm (strPre_ne (by decide) s))
      (fun s => Ne.symm (strPre_ne (by decide) s)) (by decide) a
  have hD : (decode_element a).count "leaky=downstream" = 0 := count_decode_zero (by decide) a
  have hI : (inference_command a).count "leaky=downstream" = 0 :=
    count_inference_zero (fun s => Ne.symm (strPre_ne (by decide) s))
      (fun s => Ne.symm (strPre_ne (by decide) s))
      (fun s => Ne.symm (strPre_ne (by decide) s))
      (fun s => Ne.symm (strPre_ne (by decide) s))
      (fun s => Ne.symm (strPre_ne (by decide) s)) (by decide) a
  have hT : ∀ i, (branchTail i).count "leaky=downstream" = 0 :=
    fun i => count_tail_zero (fun s => Ne.symm (strPre_ne (by decide) s)) (by decide) i
  unfold build_pipeline
  split_ifs
  · rw [List.count_append, List.count_append,
      count_fanBranches a _ 1 (fun i => by
        simp [List.count_append, List.count_cons, hD, hI, hT])]
    simp [hH, hS]
  · rw [List.count_append,
      count_indepBranches a _ 0 (fun i => by
        simp [List.count_append, List.count_cons, hS, hD, hI, hT])]
    simp [hH]

theorem count_pipeline_v4l2src (a : BuildArgs) :
    (build_pipeline a).count "v4l2src" =
      if !isVideoFile a.input && !pyStartsWith a.input "rtsp://" then
        (if pyStartsWith a.input "/dev/video" && decide (1 < a.number_of_streams)
         then 1 else a.number_of_streams)
      else 0 := by
  have hH : (pipelineHeader a).count "v4l2src" = 0 :=
    count_header (fun s => Ne.symm (strPre_ne (by decide) s))
      (fun s => Ne.symm (strPre_ne (by decide) s)) (by decide) a
  have hS := count_source_v4l2src a
  have hD : (decode_element a).count "v4l2src" = 0 := count_decode_zero (by decide) a
  have hI : (inference_command a).count "v4l2src" = 0 :=
    count_inference_zero (fun s => Ne.symm (strPre_ne (by decide) s))
      (fun s => Ne.symm (strPre_ne (by decide) s))
      (fun s => Ne.symm (strPre_ne (by decide) s))
      (fun s => Ne.symm (strPre_ne (by decide) s))
      (fun s => Ne.symm (strPre_ne (by decide) s)) (by decide) a
  have hT : ∀ i, (branchTail i).count "v4l2src" = 0 :=
    fun i => count_tail_zero (fun s => Ne.symm (strPre_ne (by decide) s)) (by decide) i
  unfold build_pipeline
  by_cases hfan :
    (pyStartsWith a.input "/dev/video" && decide (1 < a.number_of_streams)) = true
  · rw [if_pos hfan, List.count_append, List.count_append,
      count_fanBranches a "v4l2src" 0 (fun i => by
        simp [List.count_append, List.count_cons, hD, hI, hT])]
    rw [hH, hS]
    by_cases hcam : (!isVideoFile a.input && !pyStartsWith a.input "rtsp://") = true <;>
      simp [hcam, hfan]
  · rw [if_neg hfan, List.count_append,
      count_indepBranches a "v4l2src" ((source_command a).count "v4l2src") (fun i => by
        simp [List.count_append, List.count_cons, hD, hI, hT])]
    rw [hH, hS]
    by_cases hcam : (!isVideoFile a.input && !pyStartsWith a.input "rtsp://") = true <;>
      simp [hcam, hfan]

/-- C1, counterexample to the claim as stated: the source `"0"` is classified as a
camera device (`is_webcam_input "0" = true`) and `stream_count = 2 > 1`, yet the built
description contains two `v4l2src` capture stages (one per branch) and no branch reads
from a fan-out point (`"camtee."` never occurs): the shared-capture form is selected by
`input.startswith("/dev/video")`, not by the camera classification. -/
theorem c1_camera_fanout_counterexample :
    is_webcam_input "0" = true
    ∧ 1 < c1CounterArgs.number_of_streams
    ∧ (build_pipeline c1CounterArgs).count "v4l2src" = 2
    ∧ (build_pipeline c1CounterArgs).count "camtee." = 0 := by decide

/-- C1 (amended): the shared-capture fan-out form is emitted exactly when the raw input
string starts with `"/dev/video"` and `stream_count > 1`; then the description contains
one capture stage (`v4l2src`), `stream_count` fan-out readers (`"camtee."`), and
`stream_count` bounded drop-oldest buffering stages (`leaky=downstream`).  In every
other configuration there are no fan-out readers and, whenever the source is neither a
video file nor an RTSP URL (so a capture element is used at all), each of the
`stream_count` independent branches carries its own capture stage.  Every configuration
gets exactly `stream_count` inference (`gvaclassify`), telemetry (`gvafpscounter`) and
overlay (`gvawatermark`) stages, one per branch. -/
theorem c1_capture_fanout_counts (a : BuildArgs) :
    (build_pipeline a).count "gvaclassify" = a.number_of_streams
    ∧ (build_pipeline a).count "gvafpscounter" = a.number_of_streams
    ∧ (build_pipeline a).count "gvawatermark" = a.number_of_streams
    ∧ (build_pipeline a).count "camtee." =
        (if pyStartsWith a.input "/dev/video" && decide (1 < a.number_of_streams)
         then a.number_of_streams else 0)
    ∧ (build_pipeline a).count "leaky=downstream" =
        (if pyStartsWith a.input "/dev/video" && decide (1 < a.number_of_streams)
         then a.number_of_streams else 0)
    ∧ (build_pipeline a).count "v4l2src" =
        (if !isVideoFile a.input && !pyStartsWith a.input "rtsp://" then
          (if pyStartsWith a.input "/dev/video" && decide (1 < a.number_of_streams)
           then 1 else a.number_of_streams)
         else 0) :=
  ⟨count_pipeline_gvaclassify a, count_pipeline_gvafpscounter a,
   count_pipeline_gvawatermark a, count_pipeline_camtee a, count_pipeline_leaky a,
   count_pipeline_v4l2src a⟩

/-! ## Theorems about the process supervisor (C2) -/

theorem supRun_cycle (ex : Nat → Int) (j : Nat) :
    supRun true ex (2 + 4 * j) =
      ⟨.running, 1, j + 1, List.replicate j 5⟩ := by
  induction j with
  | zero => rfl
  | succ j ih =>
    have harith : 2 + 4 * (j + 1) = (2 + 4 * j) + 1 + 1 + 1 + 1 := by ring
    rw [harith]
    simp only [supRun, ih, supStep]
    simp [List.replicate_succ']

theorem supRun_inv (ex : Nat → Int) (k : Nat) :
    ((supRun true ex k).phase = .locating → (supRun true ex k).locateCalls = 0)
    ∧ (supRun true ex k).locateCalls ≤ 1
    ∧ (supRun true ex k).phase ≠ .halted
    ∧ ∀ d ∈ (supRun true ex k).sleeps, d = 5 := by
  induction k with
  | zero => simp [supRun, supInit]
  | succ k ih =>
    obtain ⟨h1, h2, h3, h4⟩ := ih
    simp only [supRun]
    cases hp : (supRun true ex k).phase
    · have h0 := h1 hp
      exact ⟨by simp [supStep, hp], by simp [supStep, hp]; omega,
        by simp [supStep, hp], by simpa [supStep, hp] using h4⟩
    · exact ⟨by simp [supStep, hp], by simpa [supStep, hp] using h2,
        by simp [supStep, hp], by simpa [supStep, hp] using h4⟩
    · exact ⟨by simp [supStep, hp], by simpa [supStep, hp] using h2,
        by simp [supStep, hp], by simpa [supStep, hp] using h4⟩
    · exact ⟨by simp [supStep, hp], by simpa [supStep, hp] using h2,
        by simp [supStep, hp], by simpa [supStep, hp] using h4⟩
    · refine ⟨by simp [supStep, hp], by simpa [supStep, hp] using h2,
        by simp [supStep, hp], ?_⟩
      simp only [supStep, hp]
      intro d hd
      rw [List.mem_append] at hd
      rcases hd with hd | hd
      · exact h4 d hd
      · simpa using hd
    · exact absurd hp h3

/-- C2, counterexample to the claim as stated: by the time the state machine has
completed its first cooldown (state after 4 steps) it transitions to BUILDING (state
after 5 steps) and respawns (2 build calls after 6 steps) while the Model Locator has
still been invoked exactly once — it is not re-invoked before rebuilding, contradicting
the claimed transition back to LOCATING. -/
theorem c2_relocate_counterexample :
    (supRun true (fun _ => 1) 4).phase = SupPhase.cooldown
    ∧ (supRun true (fun _ => 1) 5).phase = SupPhase.building
    ∧ (supRun true (fun _ => 1) 6).buildCalls = 2
    ∧ (supRun true (fun _ => 1) 6).locateCalls = 1 := by decide

/-- C2 (amended): after the pipeline process exits (with any exit code, the transition
ignores it) or draining raises, the supervisor waits the fixed 5-unit cooldown and then
transitions back to BUILDING — rebuilding and respawning without re-invoking the Model
Locator, which runs exactly once, before the loop — repeating indefinitely with no
backoff growth (every recorded sleep is 5) and no maximum attempt count (the number of
build/spawn cycles grows without bound), and never halting once the model was found. -/
theorem c2_supervisor_cooldown_loop (ex : Nat → Int) :
    (∀ k, (∀ d ∈ (supRun true ex k).sleeps, d = 5)
      ∧ (supRun true ex k).locateCalls ≤ 1
      ∧ (supRun true ex k).phase ≠ .halted
      ∧ ((supRun true ex k).phase = .cooldown →
          (supRun true ex (k + 1)).phase = .building
          ∧ (supRun true ex (k + 1)).sleeps = (supRun true ex k).sleeps ++ [5]))
    ∧ (∀ m, ∃ k, m ≤ (supRun true ex k).buildCalls) := by
  constructor
  · intro k
    obtain ⟨_, h2, h3, h4⟩ := supRun_inv ex k
    refine ⟨h4, h2, h3, fun hcd => ?_⟩
    constructor <;> simp [supRun, supStep, hcd]
  · intro m
    refine ⟨2 + 4 * m, ?_⟩
    rw [supRun_cycle ex m]
    exact Nat.le_succ m

/-! ## Theorems about the model locator (C6) -/

/-- C6: `get_model_path` returns the not-found triple `(none, none, none)` if and only
if no weights file exists at the primary path and the custom-models glob for that model
name is empty; equivalently, the weights component alone is `none` under exactly the
same condition.  The condition never mentions labels or model-proc files: their absence
resolves each component to `none` independently and never causes not-found.  The
hypothesis states filesystem sanity: globbing a non-existent directory yields nothing. -/
theorem c6_model_locator (fs : FileSystem) (parent name precision : String)
    (hwf : ∀ d, fs.dirExists d = false → fs.xmlFiles d = []) :
    (get_model_path fs parent name precision = (none, none, none)
      ↔ (fs.pathExists (primaryModelPath parent name precision) = false
         ∧ fs.xmlFiles (customModelDir name) = []))
    ∧ ((get_model_path fs parent name precision).1 = none
      ↔ (fs.pathExists (primaryModelPath parent name precision) = false
         ∧ fs.xmlFiles (customModelDir name) = [])) := by
  unfold get_model_path
  by_cases h1 : fs.pathExists (primaryModelPath parent name precision) = true
  · simp [h1]
  · rw [Bool.not_eq_true] at h1
    by_cases h2 : fs.dirExists (customModelDir name) = true
    · rcases hx : fs.xmlFiles (customModelDir name) with _ | ⟨x, xs⟩ <;>
        simp [h1, h2, hx]
    · rw [Bool.not_eq_true] at h2
      simp [h1, h2, hwf _ h2]

/-- Witness for C6: on the empty filesystem the locator reports not-found for the
default model and precision. -/
theorem c6_model_locator_witness :
    get_model_path emptyFS "./models" "resnet-18-pytorch" "FP16" = (none, none, none) :=
  (c6_model_locator emptyFS "./models" "resnet-18-pytorch" "FP16"
    (fun _ _ => rfl)).1.mpr ⟨rfl, rfl⟩

/-! ## Theorems about the status notifier (C7, C10) -/

theorem natCharsAux_digits (fuel : Nat) :
    ∀ n, ∀ c ∈ natCharsAux fuel n, c.isDigit = true := by
  induction fuel with
  | zero => intro n c hc; simp [natCharsAux] at hc
  | succ fuel ih =>
    intro n c hc
    rw [natCharsAux] at hc
    split at hc
    · rename_i h
      simp only [List.mem_singleton] at hc
      subst hc
      interval_cases n <;> decide
    · rename_i h
      rw [List.mem_append] at hc
      rcases hc with hc | hc
      · exact ih (n / 10) c hc
      · simp only [List.mem_singleton] at hc
        subst hc
        have hm : n % 10 < 10 := Nat.mod_lt _ (by omega)
        set m := n % 10 with hmdef
        interval_cases m <;> decide

theorem natChars_digits (n : Nat) : ∀ c ∈ natChars n, c.isDigit = true :=
  natCharsAux_digits (n + 1) n

theorem intStr_toList_pos {id : Int} (hid : 0 < id) :
    (intStr id).toList = natChars id.toNat := by
  unfold intStr
  rw [if_neg (by omega)]
  rfl

theorem containsSeq_head_mem {c : Char} {cs l : List Char}
    (h : containsSeq l (c :: cs) = true) : c ∈ l := by
  induction l with
  | nil => simp [containsSeq, List.isPrefixOf] at h
  | cons a t ih =>
    rw [containsSeq, Bool.or_eq_true] at h
    rcases h with h | h
    · rw [List.isPrefixOf, Bool.and_eq_true] at h
      have : c = a := by simpa using h.1
      simp [this]
    · exact List.mem_cons_of_mem a (ih h)

theorem not_containsSeq_of_not_mem {c : Char} {cs l : List Char} (h : c ∉ l) :
    containsSeq l (c :: cs) = false := by
  cases hc : containsSeq l (c :: cs)
  · rfl
  · exact absurd (containsSeq_head_mem hc) h

theorem isPrefixOf_append_self {α : Type} [DecidableEq α] (l y : List α) :
    l.isPrefixOf (l ++ y) = true := by
  induction l with
  | nil => simp [List.isPrefixOf]
  | cons a t ih => simp [List.isPrefixOf, ih]

theorem isPrefixOf_append_of_le {α : Type} [DecidableEq α] {s l : List α}
    (h : s.length ≤ l.length) (y : List α) : s.isPrefixOf (l ++ y) = s.isPrefixOf l := by
  induction s generalizing l with
  | nil => simp [List.isPrefixOf]
  | cons c cs ih =>
    cases l with
    | nil => simp at h
    | cons b bt =>
      simp only [List.cons_append, List.isPrefixOf]
      rw [show bt.append y = bt ++ y from rfl, ih (by simpa using h)]

theorem splitOnceSeq_extend {α : Type} [DecidableEq α] {sep x : List α}
    (h : splitOnceSeq sep (x ++ sep) = some (x, [])) (y : List α) :
    splitOnceSeq sep (x ++ sep ++ y) = some (x, y) := by
  induction x with
  | nil =>
    simp only [List.nil_append] at h ⊢
    cases sep with
    | nil =>
      cases y with
      | nil => rfl
      | cons b bt => simp [splitOnceSeq, List.isPrefixOf]
    | cons s st =>
      have h1 : (s :: st).isPrefixOf (s :: (st ++ y)) = true :=
        isPrefixOf_append_self (s :: st) y
      rw [show (s :: st) ++ y = s :: (st ++ y) from rfl, splitOnceSeq, if_pos h1]
      simp [List.drop_left]
  | cons a x' ih =>
    rw [List.cons_append, splitOnceSeq] at h
    by_cases hpre : sep.isPrefixOf (a :: (x' ++ sep)) = true
    · rw [if_pos hpre] at h
      exact absurd h (by simp)
    · rw [if_neg hpre] at h
      rcases hs : splitOnceSeq sep (x' ++ sep) with _ | ⟨x2, y2⟩
      · rw [hs] at h
        exact absurd h (by simp)
      · rw [hs] at h
        simp only [Option.some.injEq, Prod.mk.injEq, List.cons.injEq] at h
        obtain ⟨⟨_, hx2⟩, hy2⟩ := h
        rw [hx2, hy2] at hs
        have hih := ih hs
        have hpre' : sep.isPrefixOf (a :: (x' ++ sep)) = false := by
          rw [← Bool.not_eq_true]
          exact hpre
        have hfalse : sep.isPrefixOf (a :: (x' ++ sep ++ y)) = false := by
          have hassoc : a :: (x' ++ sep ++ y) = (a :: (x' ++ sep)) ++ y := by
            simp
          rw [hassoc, isPrefixOf_append_of_le ?_ y]
          · exact hpre'
          · simp only [List.length_cons, List.length_append]
            omega
        have hgoal : (a :: x') ++ sep ++ y = a :: (x' ++ sep ++ y) := by simp
        rw [hgoal, splitOnceSeq, if_neg (by rw [hfalse]; exact Bool.false_ne_true), hih]

theorem takeWhile_append_head {α : Type} (p : α → Bool) (l1 : List α)
    (h1 : ∀ x ∈ l1, p x = true) (c : α) (hc : p c = false) (t : List α) :
    (l1 ++ c :: t).takeWhile p = l1 ∧ (l1 ++ c :: t).dropWhile p = c :: t := by
  induction l1 with
  | nil => simp [List.takeWhile_cons, List.dropWhile_cons, hc]
  | cons a l ih =>
    have ha := h1 a (List.mem_cons_self a l)
    have ih' := ih fun x hx => h1 x (List.mem_cons_of_mem a hx)
    simp [List.takeWhile_cons, List.dropWhile_cons, ha, ih'.1, ih'.2]

theorem urlparseSNP_eq {u : String} {sch rest : List Char}
    (h : splitOnceSeq "://".toList u.toList = some (sch, rest)) :
    urlparseSNP u = (⟨sch⟩, ⟨rest.takeWhile (fun c => c ≠ '/')⟩,
      ⟨rest.dropWhile (fun c => c ≠ '/')⟩) := by
  unfold urlparseSNP
  rw [h]

theorem notifier_url_parts (id : Int) :
    urlparseSNP ("http" ++ "://" ++ "127.0.0.1:8080" ++ ("/api/workloads/" ++ intStr id))
      = ("http", "127.0.0.1:8080", "/api/workloads/" ++ intStr id) := by
  have hsplit : splitOnceSeq "://".toList
      ("http" ++ "://" ++ "127.0.0.1:8080" ++ ("/api/workloads/" ++ intStr id)).toList
      = some ("http".toList,
          "127.0.0.1:8080".toList ++ ("/api/workloads/" ++ intStr id).toList) := by
    rw [show ("http" ++ "://" ++ "127.0.0.1:8080" ++ ("/api/workloads/" ++ intStr id)).toList
        = "http".toList ++ "://".toList
          ++ ("127.0.0.1:8080".toList ++ ("/api/workloads/" ++ intStr id).toList) from by
      simp [String.toList]]
    exact splitOnceSeq_extend (by decide) _
  rw [urlparseSNP_eq hsplit]
  have hpl : ("/api/workloads/" ++ intStr id).toList
      = '/' :: ("api/workloads/".toList ++ (intStr id).toList) := by
    rw [show ("/api/workloads/" ++ intStr id).toList
        = "/api/workloads/".toList ++ (intStr id).toList from by simp [String.toList]]
    rfl
  have htw := takeWhile_append_head (fun c => decide (c ≠ '/'))
    "127.0.0.1:8080".toList (by decide) '/' (by decide)
    ("api/workloads/".toList ++ (intStr id).toList)
  rw [hpl, htw.1, htw.2, ← hpl]
  rfl

theorem notifier_path_clean {id : Int} (hid : 0 < id) :
    pyContains ("/api/workloads/" ++ intStr id) ".." = false
    ∧ pyContains ("/api/workloads/" ++ intStr id) "//" = false
    ∧ pyContains ("/api/workloads/" ++ intStr id) " " = false := by
  have hds : ∀ x ∈ (intStr id).toList, x.isDigit = true := by
    rw [intStr_toList_pos hid]
    exact natChars_digits _
  have hslash : ∀ x ∈ (intStr id).toList, x ≠ '/' := by
    intro x hx he
    have := hds x hx
    rw [he] at this
    exact absurd this (by decide)
  have hpath : ("/api/workloads/" ++ intStr id).toList
      = "/api/workloads/".toList ++ (intStr id).toList := by simp [String.toList]
  refine ⟨?_, ?_, ?_⟩
  · show containsSeq ("/api/workloads/" ++ intStr id).toList "..".toList = false
    rw [hpath, show "..".toList = ['.', '.'] from rfl]
    apply not_containsSeq_of_not_mem
    intro hmem
    rw [List.mem_append] at hmem
    rcases hmem with hm | hm
    · exact absurd hm (by decide)
    · have := hds _ hm
      exact absurd this (by decide)
  · show containsSeq ("/api/workloads/" ++ intStr id).toList "//".toList = false
    rw [hpath, show "//".toList = ['/', '/'] from rfl]
    have h2 : containsSeq ((intStr id).toList) ['/', '/'] = false := by
      apply not_containsSeq_of_not_mem
      intro hmem
      exact hslash _ hmem rfl
    have h1 : List.isPrefixOf ['/'] ((intStr id).toList) = false := by
      cases hil : (intStr id).toList with
      | nil => rfl
      | cons d dt =>
        have hd : d ≠ '/' := hslash d (by rw [hil]; exact List.mem_cons_self d dt)
        simp [List.isPrefixOf, Ne.symm hd]
    rw [show "/api/workloads/".toList
        = ['/', 'a', 'p', 'i', '/', 'w', 'o', 'r', 'k', 'l', 'o', 'a', 'd', 's', '/']
        from rfl]
    simp [containsSeq, List.isPrefixOf, h1, h2]
    exact ⟨h1, h2⟩
  · show containsSeq ("/api/workloads/" ++ intStr id).toList " ".toList = false
    rw [hpath, show " ".toList = [' '] from rfl]
    apply not_containsSeq_of_not_mem
    intro hmem
    rw [List.mem_append] at hmem
    rcases hmem with hm | hm
    · exact absurd hm (by decide)
    · have := hds _ hm
      exact absurd this (by decide)

/-- Helper: for a positive identifier every validation step passes and exactly one
PATCH is attempted, whatever the network outcome. -/
theorem update_payload_status_pos {id : Int} (hid : 0 < id) (status : String)
    (port : Nat) (net : Except String Unit) :
    update_payload_status id status port net =
      .ok [⟨"http" ++ "://" ++ "127.0.0.1:8080" ++ ("/api/workloads/" ++ intStr id),
           status, port⟩] := by
  obtain ⟨hp1, hp2, hp3⟩ := notifier_path_clean hid
  unfold update_payload_status
  rw [if_neg (by simp [is_valid_id, hid])]
  simp only [notifier_url_parts id]
  rw [if_neg (by simp)]
  rw [if_neg (by simp [hp1, hp2, hp3])]
  cases net <;> rfl

/-- C7: a non-positive workload identifier makes the Status Notifier return without
attempting any network call; a positive identifier with any status makes it attempt
exactly one PATCH to the fixed loopback target `/api/workloads/{id}`, and whatever the
network outcome (`net` ranging over success and failure), no exception escapes (the
result is always `.ok`). -/
theorem c7_status_notifier (status : String) (port : Nat) (net : Except String Unit) :
    (∀ id : Int, id ≤ 0 → update_payload_status id status port net = .ok [])
    ∧ (∀ id : Int, 0 < id →
        update_payload_status id status port net =
          .ok [⟨"http" ++ "://" ++ "127.0.0.1:8080" ++ ("/api/workloads/" ++ intStr id),
               status, port⟩]) := by
  constructor
  · intro id hid
    unfold update_payload_status
    rw [if_pos (by simp [is_valid_id]; omega)]
  · intro id hid
    exact update_payload_status_pos hid status port net

/-- Witness for C7 at the identifiers 0, -5 and 42 of the claim, both for a successful
and for a failing network call. -/
theorem c7_status_notifier_witness :
    update_payload_status 0 "active" 5024 (.ok ()) = .ok []
    ∧ update_payload_status (-5) "active" 5024 (.ok ()) = .ok []
    ∧ update_payload_status 42 "active" 5024 (.error "connection refused") =
        .ok [⟨"http" ++ "://" ++ "127.0.0.1:8080" ++ ("/api/workloads/" ++ intStr 42),
             "active", 5024⟩] :=
  ⟨(c7_status_notifier "active" 5024 (.ok ())).1 0 (by omega),
   (c7_status_notifier "active" 5024 (.ok ())).1 (-5) (by omega),
   (c7_status_notifier "active" 5024 (.error "connection refused")).2 42 (by omega)⟩

/-- C10: for every positive identifier, re-parsing the composed URL yields scheme
`http`, authority `127.0.0.1:8080` and path `/api/workloads/{id}`; the path contains no
`..`, no `//` and no space; hence none of the defensive rejection branches fires and
the function always proceeds to attempt the request. -/
theorem c10_url_validation (id : Int) (hid : 0 < id) :
    urlparseSNP ("http" ++ "://" ++ "127.0.0.1:8080" ++ ("/api/workloads/" ++ intStr id))
      = ("http", "127.0.0.1:8080", "/api/workloads/" ++ intStr id)
    ∧ pyContains ("/api/workloads/" ++ intStr id) ".." = false
    ∧ pyContains ("/api/workloads/" ++ intStr id) "//" = false
    ∧ pyContains ("/api/workloads/" ++ intStr id) " " = false
    ∧ ∀ status port net, update_payload_status id status port net =
        .ok [⟨"http" ++ "://" ++ "127.0.0.1:8080" ++ ("/api/workloads/" ++ intStr id),
             status, port⟩] :=
  ⟨notifier_url_parts id, (notifier_path_clean hid).1, (notifier_path_clean hid).2.1,
   (notifier_path_clean hid).2.2,
   fun status port net => update_payload_status_pos hid status port net⟩

/-- Witness for C10 at identifier 42. -/
theorem c10_url_validation_witness :
    urlparseSNP ("http" ++ "://" ++ "127.0.0.1:8080" ++ ("/api/workloads/" ++ intStr 42))
      = ("http", "127.0.0.1:8080", "/api/workloads/" ++ intStr 42)
    ∧ pyContains ("/api/workloads/" ++ intStr 42) "//" = false :=
  ⟨(c10_url_validation 42 (by omega)).1, (c10_url_validation 42 (by omega)).2.2.1⟩

/-! ## Theorems about the metrics extractor (C3) -/

/-- C3: on the spec's example line the extractor produces the snapshot with total
12.50 (= `mkRat 25 2`), stream count 2, average 6.25 (= `mkRat 25 4`) and the 1-based
per-stream mapping `{stream_id 1 ↦ 6.10, stream_id 2 ↦ 6.40}`; on the matching line
without the parenthesized list it synthesizes the single-entry mapping from the
average; and whenever the extractor reports no match, the drain step leaves the
previous snapshot untouched. -/
theorem c3_metrics_extractor :
    filter_result
      "FpsCounter(...): total=12.50 fps, number-streams=2, per-stream=6.25 fps (6.10,6.40)" 0
      = .ok (some (FpsMetrics.mk (mkRat 25 2) 2 (mkRat 25 4)
          [("stream_id 1", mkRat 61 10), ("stream_id 2", mkRat 32 5)] 0))
    ∧ filter_result
      "FpsCounter(...): total=12.50 fps, number-streams=2, per-stream=6.25 fps" 0
      = .ok (some (FpsMetrics.mk (mkRat 25 2) 2 (mkRat 25 4)
          [("stream_id 1", mkRat 25 4)] 0))
    ∧ ∀ s line now, filter_result line now = .ok none → processLine s line now = .ok s := by
  refine ⟨by decide, by decide, ?_⟩
  intro s line now h
  unfold processLine
  rw [h]

/-- Witness for C3: a non-matching line leaves the snapshot unchanged. -/
theorem c3_metrics_extractor_witness :
    filter_result "hello" 0 = .ok none ∧ processLine none "hello" 0 = .ok none :=
  ⟨by decide, c3_metrics_extractor.2.2 none "hello" 0 (by decide)⟩

/-! ## Theorems about the stream relay (C4) -/

/-- C4: a buffer holding two complete boundary-delimited frames followed by a partial
third yields exactly the parts of the frames that decode (in order, each wrapped as
`--frame`, `Content-Type: image/jpeg`, payload, trailing CRLF) and retains the partial
remainder; a frame whose decode fails contributes nothing and the sequence continues —
both read off the `filterMap` form of the conclusion.  The hypotheses say the frames
are boundary-free (the boundary's first occurrence in `fᵢ ++ boundary` is at the end)
and the remainder contains no boundary. -/
theorem c4_stream_relay (dec : List Nat → Option (List Nat)) (enc : List Nat → List Nat)
    (f1 f2 p : List Nat)
    (h1 : splitOnceSeq boundaryBytes (f1 ++ boundaryBytes) = some (f1, []))
    (h2 : splitOnceSeq boundaryBytes (f2 ++ boundaryBytes) = some (f2, []))
    (hp : splitOnceSeq boundaryBytes p = none) :
    mjpeg_stream_drain dec enc (f1 ++ boundaryBytes ++ f2 ++ boundaryBytes ++ p)
      = ([f1, f2].filterMap fun f => (dec f).map fun i => mjpegPart (enc i), p) := by
  have hs1 : splitOnceSeq boundaryBytes (f1 ++ boundaryBytes ++ f2 ++ boundaryBytes ++ p)
      = some (f1, f2 ++ boundaryBytes ++ p) := by
    have hx := splitOnceSeq_extend h1 (f2 ++ boundaryBytes ++ p)
    rw [show f1 ++ boundaryBytes ++ f2 ++ boundaryBytes ++ p
        = f1 ++ boundaryBytes ++ (f2 ++ boundaryBytes ++ p) from by simp]
    exact hx
  have hs2 : splitOnceSeq boundaryBytes (f2 ++ boundaryBytes ++ p) = some (f2, p) :=
    splitOnceSeq_extend h2 p
  have hstop : ∀ k, drainFramesF dec enc k p = ([], p) := by
    intro k
    cases k
    · rfl
    · rw [drainFramesF, hp]
  unfold mjpeg_stream_drain
  obtain ⟨m, hm⟩ :
      ∃ m, (f1 ++ boundaryBytes ++ f2 ++ boundaryBytes ++ p).length = m + 1 + 1 := by
    refine ⟨(f1 ++ boundaryBytes ++ f2 ++ boundaryBytes ++ p).length - 2, ?_⟩
    have hlen : 2 ≤ (f1 ++ boundaryBytes ++ f2 ++ boundaryBytes ++ p).length := by
      simp [boundaryBytes]
      omega
    omega
  rw [hm, drainFramesF, hs1]
  simp only [drainFramesF, hs2, hstop m]
  rcases hdec1 : dec f1 with _ | i1 <;> rcases hdec2 : dec f2 with _ | i2 <;>
    simp [hdec1, hdec2]

/-- Witness for C4: two one-byte frames and a partial byte, with decode and re-encode
taken as identities. -/
theorem c4_stream_relay_witness :
    mjpeg_stream_drain (fun f => some f) (fun f => f)
      ([1] ++ boundaryBytes ++ [2] ++ boundaryBytes ++ [3])
      = ([mjpegPart [1], mjpegPart [2]], [3]) :=
  (c4_stream_relay (fun f => some f) (fun f => f) [1] [2] [3]
    (by decide) (by decide) (by decide)).trans (by decide)

/-! ## Theorems about the result endpoint (C8) -/

/-- C8 is a code bug: the handler is meant to return the JSON envelope
`{"status": false, "message": ...}` when relay setup fails (its `except` branch says
so), but `mjpeg_stream` is a generator, so the TCP connection — and any setup failure —
happens only once the server iterates the body, after the handler returned.  At the
failing input (connection refused, e.g. no listener on the sink port) the endpoint
still returns the multipart streaming response, whose body then errors mid-stream;
for every connection outcome the response is the streaming variant, never the JSON
envelope. -/
theorem c8_result_error_envelope :
    get_mjpeg_stream_route (.error "connection refused")
      = .streaming "multipart/x-mixed-replace; boundary=frame" .errored
    ∧ ∀ connect, ∃ body, get_mjpeg_stream_route connect
        = .streaming "multipart/x-mixed-replace; boundary=frame" body := by
  refine ⟨rfl, fun connect => ?_⟩
  cases connect
  · exact ⟨_, rfl⟩
  · exact ⟨_, rfl⟩

/-! ## Theorems about the drain ordering (C9) -/

/-- C9, counterexample to the claim as stated: with two stdout lines and one stderr
line pending, the drain's read sequence is deterministic and consumes the secondary
channel only after the primary channel is exhausted — the stderr read is the last
event, not interleaved — so the two channels are not consumed concurrently and a
blocked secondary channel is not serviced while the primary is being read. -/
theorem c9_sequential_drain_counterexample :
    run_pipeline_trace ["a", "b"] ["x"]
      = [DrainEvent.outLine "a", DrainEvent.outLine "b", DrainEvent.errLine "x"]
    ∧ (run_pipeline_trace ["a", "b"] ["x"]).take 2
      = [DrainEvent.outLine "a", DrainEvent.outLine "b"] := by decide

/-- C9 (amended): during draining the supervisor first consumes the primary (stdout)
channel line by line to exhaustion — the first `outs.length` read events are exactly
the stdout lines — and only afterwards consumes the secondary (stderr) channel; the
resulting metrics state depends only on the stdout lines (stderr content never reaches
the Metrics Extractor). -/
theorem c9_drain_order (s0 : Option FpsMetrics) (outs errs errs2 : List String)
    (now : ℚ) :
    (run_pipeline_model s0 outs errs now).1.take outs.length
      = outs.map DrainEvent.outLine
    ∧ (run_pipeline_model s0 outs errs now).1.drop outs.length
      = errs.map DrainEvent.errLine
    ∧ (run_pipeline_model s0 outs errs now).2 = (run_pipeline_model s0 outs errs2 now).2 := by
  refine ⟨?_, ?_, rfl⟩
  · show (outs.map DrainEvent.outLine ++ errs.map DrainEvent.errLine).take outs.length
      = outs.map DrainEvent.outLine
    rw [show outs.length = (outs.map DrainEvent.outLine).length
        from (List.length_map _ _).symm]
    exact List.take_left _ _
  · show (outs.map DrainEvent.outLine ++ errs.map DrainEvent.errLine).drop outs.length
      = errs.map DrainEvent.errLine
    rw [show outs.length = (outs.map DrainEvent.outLine).length
        from (List.length_map _ _).symm]
    exact List.drop_left _ _

end EAST
